import Mathlib

/-!
Verification development for the serverless image-to-video request handler
(`handler.py`, `utils/workflow.py`, `utils/model_manager.py`).

The Python code is shallowly embedded:

* JSON-like workflow graphs become functions from node-identifier strings to
  optional nodes; a node is an operation name together with a parameter map.
* Python numeric literals are embedded exactly: `int` literals as `Int`,
  `float` literals as the `Rat` denoted by their decimal notation.
* Exceptions become `Except String` results carrying the exception message.
* HTTP interaction with the inference engine is an oracle (`Env`) giving the
  outcome of each request; polling oracles are indexed by elapsed seconds.
* The file system of the model store is a list of present paths.
-/

set_option autoImplicit false

namespace WanCamera

/-- The exact rational denoted by the Python float literal `m * 10 ^ (-e)`
(written through `mkRat` so that all comparisons reduce by evaluation). -/
def pyFloat (m : Int) (e : Nat) : Rat :=
  mkRat m (10 ^ e)

/-- A JSON parameter value in a workflow graph: a string, an integer literal,
a float literal (embedded as the exact rational its decimal notation denotes),
or a reference `[node, slot]` to another node's output. -/
inductive Value where
  | vStr (s : String)
  | vInt (n : Int)
  | vNum (q : Rat)
  | vRef (node : String) (slot : Nat)
  deriving DecidableEq, Repr

/-- A workflow graph node: `{"inputs": {...}, "class_type": ...}`. -/
structure Node where
  class_type : String
  inputs : String → Option Value

/-- A workflow graph: a JSON object mapping node-identifier strings to nodes. -/
def Wf : Type := String → Option Node

/-- Node "71" of `WORKFLOW_TEMPLATE` (KSamplerAdvanced, first stage). -/
def node71 : Node :=
  ⟨"KSamplerAdvanced", fun k =>
    if k = "add_noise" then some (.vStr "enable")
    else if k = "noise_seed" then some (.vInt 316038771312063)
    else if k = "steps" then some (.vInt 4)
    else if k = "cfg" then some (.vInt 1)
    else if k = "sampler_name" then some (.vStr "euler")
    else if k = "scheduler" then some (.vStr "simple")
    else if k = "start_at_step" then some (.vInt 0)
    else if k = "end_at_step" then some (.vInt 2)
    else if k = "return_with_leftover_noise" then some (.vStr "enable")
    else if k = "model" then some (.vRef "76" 0)
    else if k = "positive" then some (.vRef "80" 0)
    else if k = "negative" then some (.vRef "80" 1)
    else if k = "latent_image" then some (.vRef "80" 2)
    else none⟩

/-- Node "72" of `WORKFLOW_TEMPLATE` (UNETLoader, low noise). -/
def node72 : Node :=
  ⟨"UNETLoader", fun k =>
    if k = "unet_name" then some (.vStr "wan2.2_fun_camera_low_noise_14B_fp8_scaled.safetensors")
    else if k = "weight_dtype" then some (.vStr "default")
    else none⟩

/-- Node "73" of `WORKFLOW_TEMPLATE` (SaveVideo). -/
def node73 : Node :=
  ⟨"SaveVideo", fun k =>
    if k = "filename_prefix" then some (.vStr "video/ComfyUI")
    else if k = "format" then some (.vStr "auto")
    else if k = "codec" then some (.vStr "auto")
    else if k = "video" then some (.vRef "83" 0)
    else none⟩

/-- Node "74" of `WORKFLOW_TEMPLATE` (CLIPTextEncode, negative prompt). -/
def node74 : Node :=
  ⟨"CLIPTextEncode", fun k =>
    if k = "text" then some (.vStr "static image, no movement, oversaturated colors, overexposed, blurry details, poor quality, jpeg artifacts, ugly, deformed, extra fingers, poorly drawn hands, poorly drawn face, malformed, disfigured, mutated limbs, fused fingers, frozen frame, cluttered background, three legs, crowded background, walking backwards, abrupt cuts, jerky movement, low resolution, pixelated, grainy, washed out colors, flat lighting, amateur quality, shaky camera")
    else if k = "clip" then some (.vRef "85" 0)
    else none⟩

/-- Node "75" of `WORKFLOW_TEMPLATE` (UNETLoader, high noise). -/
def node75 : Node :=
  ⟨"UNETLoader", fun k =>
    if k = "unet_name" then some (.vStr "wan2.2_fun_camera_high_noise_14B_fp8_scaled.safetensors")
    else if k = "weight_dtype" then some (.vStr "default")
    else none⟩

/-- Node "76" of `WORKFLOW_TEMPLATE` (ModelSamplingSD3, high noise path). -/
def node76 : Node :=
  ⟨"ModelSamplingSD3", fun k =>
    if k = "shift" then some (.vNum (pyFloat 8000000000000002 15))
    else if k = "model" then some (.vRef "88" 0)
    else none⟩

/-- Node "77" of `WORKFLOW_TEMPLATE` (ModelSamplingSD3, low noise path). -/
def node77 : Node :=
  ⟨"ModelSamplingSD3", fun k =>
    if k = "shift" then some (.vInt 8)
    else if k = "model" then some (.vRef "90" 0)
    else none⟩

/-- Node "78" of `WORKFLOW_TEMPLATE` (KSamplerAdvanced, second stage). -/
def node78 : Node :=
  ⟨"KSamplerAdvanced", fun k =>
    if k = "add_noise" then some (.vStr "disable")
    else if k = "noise_seed" then some (.vInt 0)
    else if k = "steps" then some (.vInt 4)
    else if k = "cfg" then some (.vInt 1)
    else if k = "sampler_name" then some (.vStr "euler")
    else if k = "scheduler" then some (.vStr "simple")
    else if k = "start_at_step" then some (.vInt 2)
    else if k = "end_at_step" then some (.vInt 4)
    else if k = "return_with_leftover_noise" then some (.vStr "disable")
    else if k = "model" then some (.vRef "77" 0)
    else if k = "positive" then some (.vRef "80" 0)
    else if k = "negative" then some (.vRef "80" 1)
    else if k = "latent_image" then some (.vRef "71" 0)
    else none⟩

/-- Node "79" of `WORKFLOW_TEMPLATE` (LoadImage). -/
def node79 : Node :=
  ⟨"LoadImage", fun k =>
    if k = "image" then some (.vStr "amueblar_after.png")
    else none⟩

/-- Node "80" of `WORKFLOW_TEMPLATE` (WanCameraImageToVideo). -/
def node80 : Node :=
  ⟨"WanCameraImageToVideo", fun k =>
    if k = "width" then some (.vRef "87" 1)
    else if k = "height" then some (.vRef "87" 2)
    else if k = "length" then some (.vRef "87" 3)
    else if k = "batch_size" then some (.vInt 1)
    else if k = "positive" then some (.vRef "81" 0)
    else if k = "negative" then some (.vRef "74" 0)
    else if k = "vae" then some (.vRef "86" 0)
    else if k = "start_image" then some (.vRef "79" 0)
    else if k = "camera_conditions" then some (.vRef "87" 0)
    else none⟩

/-- Node "81" of `WORKFLOW_TEMPLATE` (CLIPTextEncode, positive prompt). -/
def node81 : Node :=
  ⟨"CLIPTextEncode", fun k =>
    if k = "text" then some (.vStr "cinematic static objects, smooth camera movement, atmospheric lighting")
    else if k = "clip" then some (.vRef "85" 0)
    else none⟩

/-- Node "82" of `WORKFLOW_TEMPLATE` (VAEDecode). -/
def node82 : Node :=
  ⟨"VAEDecode", fun k =>
    if k = "samples" then some (.vRef "78" 0)
    else if k = "vae" then some (.vRef "86" 0)
    else none⟩

/-- Node "83" of `WORKFLOW_TEMPLATE` (CreateVideo). -/
def node83 : Node :=
  ⟨"CreateVideo", fun k =>
    if k = "fps" then some (.vInt 30)
    else if k = "images" then some (.vRef "82" 0)
    else none⟩

/-- Node "85" of `WORKFLOW_TEMPLATE` (CLIPLoader). -/
def node85 : Node :=
  ⟨"CLIPLoader", fun k =>
    if k = "clip_name" then some (.vStr "umt5_xxl_fp8_e4m3fn_scaled.safetensors")
    else if k = "type" then some (.vStr "wan")
    else if k = "device" then some (.vStr "default")
    else none⟩

/-- Node "86" of `WORKFLOW_TEMPLATE` (VAELoader). -/
def node86 : Node :=
  ⟨"VAELoader", fun k =>
    if k = "vae_name" then some (.vStr "wan_2.1_vae.safetensors")
    else none⟩

/-- Node "87" of `WORKFLOW_TEMPLATE` (WanCameraEmbedding). -/
def node87 : Node :=
  ⟨"WanCameraEmbedding", fun k =>
    if k = "camera_pose" then some (.vStr "Zoom In")
    else if k = "width" then some (.vInt 832)
    else if k = "height" then some (.vInt 448)
    else if k = "length" then some (.vInt 93)
    else if k = "speed" then some (.vNum (pyFloat 2 1))
    else if k = "fx" then some (.vNum (pyFloat 5 1))
    else if k = "fy" then some (.vNum (pyFloat 5 1))
    else if k = "cx" then some (.vNum (pyFloat 5 1))
    else if k = "cy" then some (.vNum (pyFloat 5 1))
    else none⟩

/-- Node "88" of `WORKFLOW_TEMPLATE` (LoraLoaderModelOnly, high noise). -/
def node88 : Node :=
  ⟨"LoraLoaderModelOnly", fun k =>
    if k = "lora_name" then some (.vStr "wan2.2_i2v_lightx2v_4steps_lora_v1_high_noise.safetensors")
    else if k = "strength_model" then some (.vInt 1)
    else if k = "model" then some (.vRef "75" 0)
    else none⟩

/-- Node "90" of `WORKFLOW_TEMPLATE` (LoraLoaderModelOnly, low noise). -/
def node90 : Node :=
  ⟨"LoraLoaderModelOnly", fun k =>
    if k = "lora_name" then some (.vStr "wan2.2_i2v_lightx2v_4steps_lora_v1_low_noise.safetensors")
    else if k = "strength_model" then some (.vInt 1)
    else if k = "model" then some (.vRef "72" 0)
    else none⟩

/-- The fixed workflow template of `utils/workflow.py` (`WORKFLOW_TEMPLATE`),
a JSON object with eighteen nodes keyed by identifier strings. -/
def WORKFLOW_TEMPLATE : Wf := fun n =>
  if n = "71" then some node71
  else if n = "72" then some node72
  else if n = "73" then some node73
  else if n = "74" then some node74
  else if n = "75" then some node75
  else if n = "76" then some node76
  else if n = "77" then some node77
  else if n = "78" then some node78
  else if n = "79" then some node79
  else if n = "80" then some node80
  else if n = "81" then some node81
  else if n = "82" then some node82
  else if n = "83" then some node83
  else if n = "85" then some node85
  else if n = "86" then some node86
  else if n = "87" then some node87
  else if n = "88" then some node88
  else if n = "90" then some node90
  else none

/-- The Python statement `workflow[id]["inputs"][key] = v`: replace parameter
`key` of node `id` with `v`, leaving every other node and parameter alone. -/
def updNode (w : Wf) (id key : String) (v : Value) : Wf := fun n =>
  if n = id then
    (w id).map fun node =>
      { node with inputs := fun k => if k = key then some v else node.inputs k }
  else w n

/-- Look up parameter `k` of node `n` in workflow `w`
(`w[n]["inputs"][k]`, `none` when the node or the key is absent). -/
def inputsAt (w : Wf) (n k : String) : Option Value :=
  match w n with
  | none => none
  | some node => node.inputs k

/-- `create_wan_workflow` of `utils/workflow.py`: deep-copies
`WORKFLOW_TEMPLATE` (in this value-semantics embedding the copy is the
template value itself) and overwrites the image filename of node "79", the
positive-prompt text of node "81", and the camera pose, width, height and
length of node "87".  Extra keyword arguments (`speed`, `fps`, ...) are
accepted by the Python signature via `**kwargs` and ignored. -/
def create_wan_workflow (image_filename : String) (prompt : String)
    (camera_type : String) (width : Int) (height : Int) (length : Int) : Wf :=
  let workflow := WORKFLOW_TEMPLATE
  let workflow := updNode workflow "79" "image" (.vStr image_filename)
  let workflow := updNode workflow "81" "text" (.vStr prompt)
  let workflow := updNode workflow "87" "camera_pose" (.vStr camera_type)
  let workflow := updNode workflow "87" "width" (.vInt width)
  let workflow := updNode workflow "87" "height" (.vInt height)
  let workflow := updNode workflow "87" "length" (.vInt length)
  workflow

/-! ### Input validation (`handler.py`, `validate_input`) -/

/-- A Python value found under the `image` key: either a `str` or some
non-string value (its content never matters to `validate_input`). -/
inductive ImgVal where
  | str (s : String)
  | nonStr
  deriving DecidableEq, Repr

/-- An inbound job's `input` object.  `none` fields are absent keys; numeric
fields carry the types the validation ranges compare against (Python ints as
`Int`, the float `speed` as `Rat`). -/
structure JobInput where
  image : Option ImgVal := none
  prompt : Option String := none
  camera_type : Option String := none
  width : Option Int := none
  height : Option Int := none
  length : Option Int := none
  speed : Option Rat := none
  fps : Option Int := none
  deriving DecidableEq, Repr

/-- The normalized parameter set produced by `validate_input`. -/
structure Validated where
  image : String
  prompt : String
  camera_type : String
  width : Int
  height : Int
  length : Int
  speed : Rat
  fps : Int
  deriving DecidableEq, Repr

/-- Membership in the standard base64 alphabet (without padding): exactly
the bytes mapped by binascii's `table_a2b_base64` (no altchars are passed,
so `-`/`_` are not in the table). -/
def pyB64AlphaChar (c : Char) : Bool :=
  (decide ('A' ≤ c) && decide (c ≤ 'Z')) ||
  (decide ('a' ≤ c) && decide (c ≤ 'z')) ||
  (decide ('0' ≤ c) && decide (c ≤ '9')) ||
  c == '+' || c == '/'

/-- Scanner state of binascii's `a2b_base64`: either still scanning with the
current position inside the quad (`quadPos`, 0-3) and the count of padding
characters seen since the last data character (`pads`), or stopped at a
completed pad sequence (after which the rest of the input is ignored and the
call succeeds). -/
inductive B64State where
  | scan (quadPos pads : Nat)
  | donePad
  deriving DecidableEq, Repr

/-- One character step of the non-strict `binascii.a2b_base64` loop
(CPython `Modules/binascii.c`): a `'='` with `quadPos < 2` is skipped; a
`'='` with `quadPos ≥ 2` increments `pads` and, once `quadPos + pads ≥ 4`,
completes the pad sequence; a base64-alphabet character resets `pads` and
advances `quadPos` cyclically; any other character is skipped (without
touching `pads`). -/
def b64Step (st : B64State) (c : Char) : B64State :=
  match st with
  | .donePad => .donePad
  | .scan quadPos pads =>
    if c = '=' then
      if 2 ≤ quadPos then
        if 4 ≤ quadPos + (pads + 1) then .donePad
        else .scan quadPos (pads + 1)
      else .scan quadPos pads
    else if pyB64AlphaChar c then .scan ((quadPos + 1) % 4) 0
    else .scan quadPos pads

/-- Modelled behaviour of the standard-library call `base64.b64decode(s)`
on a `str` with default (non-strict) validation: first the string is encoded
as ASCII (`_bytes_from_decode_data` raises `ValueError` on any code point
above 127), then `binascii.a2b_base64` scans it with `b64Step` starting from
`scan 0 0`; the call raises exactly when the scan ends mid-quad
(`quadPos ≠ 0` — "Incorrect padding", or "number of data characters cannot
be 1 more than a multiple of 4"), and succeeds when the scan ends at a quad
boundary or stopped at a completed pad sequence.  `validate_input` only
uses whether the call raises, never the decoded bytes. -/
def pyB64Ok (s : String) : Bool :=
  s.data.all (fun c => decide (c.toNat ≤ 127)) &&
    (match s.data.foldl b64Step (.scan 0 0) with
     | .donePad => true
     | .scan quadPos _ => quadPos == 0)

/-- The Python expression `s.split(',', 1)[1]`: everything after the first
comma, or `none` (an `IndexError`) when the string has no comma. -/
def afterFirstComma (s : String) : Option String :=
  match s.data.dropWhile (fun c => c ≠ ',') with
  | [] => none
  | _ :: rest => some (String.mk rest)

/-- The base64-checking try-block of `validate_input` (handler.py lines
118-124): strip an optional data-URL marker up to the first comma, then
decode; every exception inside the block (including the `IndexError` when a
`data:image/` string has no comma) is converted to the `ValueError`
message `"Invalid base64 image data"`.  On success, returns the (possibly
stripped) base64 payload that becomes `validated["image"]`. -/
def checkImageData (s : String) : Except String String :=
  if s.startsWith "data:image/" then
    match afterFirstComma s with
    | none => .error "Invalid base64 image data"
    | some rest =>
        if pyB64Ok rest then .ok rest else .error "Invalid base64 image data"
  else if pyB64Ok s then .ok s else .error "Invalid base64 image data"

/-- `valid_camera_types` of handler.py line 141. -/
def validCameraTypes : List String :=
  ["Zoom In", "Static", "Zoom Out", "Pan Left", "Pan Right"]

/-- `validate_input` of handler.py lines 107-157: require an `image` key
holding a base64 string, fill defaults for the optional fields, then check
the camera-type enum, the width/height/length ranges and the speed range,
raising (`.error`) with the source's message at the first failing check. -/
def validate_input (j : JobInput) : Except String Validated :=
  match j.image with
  | none => .error "Missing required field: image"
  | some .nonStr => .error "Image must be base64 encoded string"
  | some (.str s) =>
    match checkImageData s with
    | .error e => .error e
    | .ok img =>
      let validated : Validated :=
        { image := img
          prompt := j.prompt.getD "cinematic static objects, smooth camera movement"
          camera_type := j.camera_type.getD "Zoom In"
          width := j.width.getD 832
          height := j.height.getD 448
          length := j.length.getD 93
          speed := j.speed.getD (pyFloat 2 1)
          fps := j.fps.getD 30 }
      if validated.camera_type ∉ validCameraTypes then
        .error "Invalid camera_type. Must be one of: ['Zoom In', 'Static', 'Zoom Out', 'Pan Left', 'Pan Right']"
      else if ¬(256 ≤ validated.width ∧ validated.width ≤ 1920 ∧
                256 ≤ validated.height ∧ validated.height ≤ 1920) then
        .error "Width and height must be between 256 and 1920"
      else if ¬(16 ≤ validated.length ∧ validated.length ≤ 200) then
        .error "Length must be between 16 and 200 frames"
      else if ¬(pyFloat 1 1 ≤ validated.speed ∧ validated.speed ≤ pyFloat 10 1) then
        .error "Speed must be between 0.1 and 1.0"
      else .ok validated

/-! ### Engine client (`utils/workflow.py`, `ComfyUIWorkflow`) -/

/-- One artifact reference under `outputs["73"]["videos"]`. -/
structure VideoOutput where
  filename : String
  subfolder : String
  ftype : String
  deriving DecidableEq, Repr

/-- One execution-history entry.  `outputs = some o` models presence of the
`"outputs"` key, where `o` is the `"videos"` list of node `"73"` when that
node and key are present (`none` otherwise); `status_str` is
`result["status"]["status_str"]` when present. -/
structure HistoryEntry where
  outputs : Option (Option (List VideoOutput)) := none
  status_str : Option String := none
  deriving DecidableEq, Repr

/-- Outcome of one `GET /history/{id}` poll: a transport error
(`requests.exceptions.RequestException`), a response in which the execution
id is not yet a key, or the history entry for the id. -/
inductive PollResp where
  | transportErr
  | missing
  | entry (e : HistoryEntry)
  deriving DecidableEq, Repr

/-- How `wait_for_completion` terminates: return the entry, raise on an
engine-reported error (carrying the entry whose status was an error), or
raise `TimeoutError`. -/
inductive PollOutcome where
  | completed (e : HistoryEntry)
  | failed (e : HistoryEntry)
  | timedOut
  deriving DecidableEq, Repr

/-- The polling loop of `ComfyUIWorkflow.wait_for_completion` (workflow.py
lines 73-98).  `env t` is the poll response at elapsed second `t`; the loop
runs while `elapsed < timeout`, returns the entry as soon as it has an
`"outputs"` key, raises when the entry's `status_str` is `"error"`, sleeps
2 seconds after an uneventful poll, sleeps 5 seconds after a transport
error, and raises `TimeoutError` when the guard fails. -/
def waitLoop (env : Nat → PollResp) (timeout : Nat) (elapsed : Nat) : PollOutcome :=
  if _h : elapsed < timeout then
    match env elapsed with
    | .transportErr => waitLoop env timeout (elapsed + 5)
    | .missing => waitLoop env timeout (elapsed + 2)
    | .entry e =>
      if e.outputs.isSome then .completed e
      else if e.status_str = some "error" then .failed e
      else waitLoop env timeout (elapsed + 2)
  else .timedOut
termination_by timeout - elapsed
decreasing_by all_goals omega

/-- `ComfyUIWorkflow.wait_for_completion(prompt_id, timeout=600)`, started
at elapsed time 0. -/
def wait_for_completion (env : Nat → PollResp) (timeout : Nat := 600) : PollOutcome :=
  waitLoop env timeout 0

/-! ### Job processing (`process_image_to_video` and `handler`) -/

/-- The HTTP calls a job can make against the engine, at the granularity of
the four client methods (polling sub-requests are folded into `poll`). -/
inductive Call where
  | upload
  | queuePrompt
  | poll
  | view
  deriving DecidableEq, Repr

/-- Oracle for one job's interaction with the engine and the runtime:
the outcome of the image upload, of `POST /prompt` (as a function of the
submitted graph), the per-second poll responses, the outcome of
`GET /view`, and the random part of the temporary upload filename. -/
structure Env where
  upload : Except String Unit
  queue : Wf → Except String String
  poll : Nat → PollResp
  view : Except String (List Nat)
  tempName : String

/-- The string the Python code interpolates for a failed execution
(`result["status"]`); the model keeps only the status string. -/
def statusRepr (e : HistoryEntry) : String :=
  e.status_str.getD ""

/-- The workflow graph built for a validated job: `process_image_to_video`
forwards prompt, camera type, width, height and length (plus, through
`**kwargs`, the ignored `speed` and `fps`) to `create_wan_workflow`. -/
def workflowForJob (tempName : String) (v : Validated) : Wf :=
  create_wan_workflow tempName v.prompt v.camera_type v.width v.height v.length

/-- `process_image_to_video` of workflow.py lines 294-354: upload the
decoded image, build the workflow from the template, submit it, poll to
completion, locate `outputs["73"]["videos"][0]`, and fetch the artifact.
Any step's exception propagates (`.error` with its message); the second
component records the engine calls made, in order. -/
def process_image_to_video (env : Env) (v : Validated) :
    Except String (List Nat × String) × List Call :=
  match env.upload with
  | .error m => (.error m, [.upload])
  | .ok _ =>
    let wf := workflowForJob env.tempName v
    match env.queue wf with
    | .error m => (.error m, [.upload, .queuePrompt])
    | .ok _pid =>
      match wait_for_completion env.poll 600 with
      | .timedOut =>
          (.error "Workflow execution timed out after 600 seconds",
           [.upload, .queuePrompt, .poll])
      | .failed e =>
          (.error ("ComfyUI execution failed: " ++ statusRepr e),
           [.upload, .queuePrompt, .poll])
      | .completed e =>
        match e.outputs.getD none with
        | none =>
            (.error "No video output found in workflow result",
             [.upload, .queuePrompt, .poll])
        | some [] =>
            (.error "list index out of range",
             [.upload, .queuePrompt, .poll])
        | some (vo :: _) =>
          match env.view with
          | .error m => (.error m, [.upload, .queuePrompt, .poll, .view])
          | .ok bytes =>
              (.ok (bytes, vo.filename),
               [.upload, .queuePrompt, .poll, .view])

/-- The handler's response object: either the success payload (the video
bytes stand in for their base64 encoding, which is total; the elapsed-time
field is not modelled) or the structured error object
`{"error": msg, "success": False}`. -/
inductive Response where
  | success (video : List Nat) (filename : String) (parameters_used : Validated)
  | failure (error : String)
  deriving DecidableEq, Repr

/-- An inbound RunPod job: `input = none` models a job dict without the
`"input"` key. -/
structure Job where
  input : Option JobInput

/-- `handler` of handler.py lines 159-194.  The outer `Except` models an
exception escaping `handler` to its caller: `job["input"]` is evaluated
before the try-block, so a missing `"input"` key raises a `KeyError` that
propagates.  Inside the try-block every exception becomes the structured
error response.  The call list records the engine calls made. -/
def handler (env : Env) (job : Job) : Except String (Response × List Call) :=
  match job.input with
  | none => .error "KeyError: 'input'"
  | some ji =>
    match validate_input ji with
    | .error e => .ok (.failure e, [])
    | .ok v =>
      match process_image_to_video env v with
      | (.error m, calls) => .ok (.failure m, calls)
      | (.ok (bytes, fname), calls) => .ok (.success bytes fname v, calls)

/-! ### Model provisioning (`utils/model_manager.py`) -/

/-- `MODELS_CONFIG` of model_manager.py: category, then for each file its
name, source URL and expected byte size (`int(6.74 * 1024 ** 3)` evaluates
to 7237019893).  The sizes and URLs feed only logging and the download
request, never a correctness decision. -/
def MODELS_CONFIG : List (String × List (String × String × Nat)) :=
  [("diffusion_models",
    [("wan2.2_fun_camera_high_noise_14B_fp8_scaled.safetensors",
      "https://huggingface.co/Comfy-Org/Wan_2.2_ComfyUI_Repackaged/resolve/main/split_files/diffusion_models/wan2.2_fun_camera_high_noise_14B_fp8_scaled.safetensors",
      17 * 1024 * 1024 * 1024),
     ("wan2.2_fun_camera_low_noise_14B_fp8_scaled.safetensors",
      "https://huggingface.co/Comfy-Org/Wan_2.2_ComfyUI_Repackaged/resolve/main/split_files/diffusion_models/wan2.2_fun_camera_low_noise_14B_fp8_scaled.safetensors",
      17 * 1024 * 1024 * 1024)]),
   ("loras",
    [("wan2.2_i2v_lightx2v_4steps_lora_v1_high_noise.safetensors",
      "https://huggingface.co/Comfy-Org/Wan_2.2_ComfyUI_Repackaged/resolve/main/split_files/loras/wan2.2_i2v_lightx2v_4steps_lora_v1_high_noise.safetensors",
      614 * 1024 * 1024),
     ("wan2.2_i2v_lightx2v_4steps_lora_v1_low_noise.safetensors",
      "https://huggingface.co/Comfy-Org/Wan_2.2_ComfyUI_Repackaged/resolve/main/split_files/loras/wan2.2_i2v_lightx2v_4steps_lora_v1_low_noise.safetensors",
      614 * 1024 * 1024)]),
   ("text_encoders",
    [("umt5_xxl_fp8_e4m3fn_scaled.safetensors",
      "https://huggingface.co/Comfy-Org/Wan_2.2_ComfyUI_Repackaged/resolve/main/split_files/text_encoders/umt5_xxl_fp8_e4m3fn_scaled.safetensors",
      7237019893)]),
   ("vae",
    [("wan_2.1_vae.safetensors",
      "https://huggingface.co/Comfy-Org/Wan_2.2_ComfyUI_Repackaged/resolve/main/split_files/vae/wan_2.1_vae.safetensors",
      254 * 1024 * 1024)])]

/-- On-disk location of a model file relative to `{volume}/models`:
`{category}/{filename}`. -/
def modelPath (category filename : String) : String :=
  category ++ "/" ++ filename

/-- Every `(category, filename)` pair of the manifest, in the iteration
order of `check_and_download_models` (Python dicts iterate in insertion
order). -/
def manifestEntries : List (String × String) :=
  (MODELS_CONFIG.map fun ci => ci.2.map fun fi => (ci.1, fi.1)).flatten

/-- All required on-disk paths. -/
def manifestPaths : List String :=
  manifestEntries.map fun e => modelPath e.1 e.2

/-- Add a path to the model store (writing the file). -/
def fsInsert (fs : List String) (p : String) : List String :=
  if p ∈ fs then fs else p :: fs

/-- `filepath.unlink()` guarded by `filepath.exists()`: afterwards the path
is absent whether or not it was present. -/
def fsErase (fs : List String) (p : String) : List String :=
  fs.filter fun q => q ≠ p

/-- Whether one download attempt succeeds, or fails at some point (network
error, non-success status, or an exception while streaming chunks). -/
inductive DlAttempt where
  | ok
  | fail
  deriving DecidableEq, Repr

/-- `download_file` of model_manager.py lines 47-82: on success the file is
fully written and `True` is returned; on any exception the partial file, if
one exists, is unlinked, and `False` is returned (the exception itself is
swallowed). -/
def download_file (fs : List String) (att : DlAttempt) (path : String) :
    List String × Bool :=
  match att with
  | .ok => (fsInsert fs path, true)
  | .fail => (fsErase fs path, false)

/-- The `missing_models` list computed by `check_and_download_models`
(lines 92-107): the manifest entries whose path is absent from the store,
in manifest order. -/
def missing_models (fs : List String) : List (String × String) :=
  manifestEntries.filter fun e => decide (modelPath e.1 e.2 ∉ fs)

/-- Result of one provisioning pass: the outcome (`.error` when the pass
raised), the final state of the model store, and the entries for which a
download was attempted, in order. -/
structure ProvisionResult where
  outcome : Except String Unit
  fs : List String
  attempted : List (String × String)
  deriving Repr

/-- The download loop of `check_and_download_models` (lines 117-124):
download each missing entry in turn; the `n`-th attempt's outcome is
`env n`; on a `False` return, raise
`"Failed to download required model: {filename}"`, abandoning the rest. -/
def downloadLoop (env : Nat → DlAttempt) (fs : List String) :
    List (String × String) → ProvisionResult
  | [] => ⟨.ok (), fs, []⟩
  | e :: rest =>
    match env 0 with
    | .ok =>
      let r := downloadLoop (fun n => env (n + 1)) (fsInsert fs (modelPath e.1 e.2)) rest
      ⟨r.outcome, r.fs, e :: r.attempted⟩
    | .fail =>
      ⟨.error ("Failed to download required model: " ++ e.2),
       fsErase fs (modelPath e.1 e.2), [e]⟩

/-- `check_and_download_models` of model_manager.py lines 84-126: collect
the missing entries; if none, return immediately; otherwise download them
in order, raising on the first failure. -/
def check_and_download_models (env : Nat → DlAttempt) (fs : List String) :
    ProvisionResult :=
  let missing := missing_models fs
  if missing = [] then ⟨.ok (), fs, []⟩
  else downloadLoop env fs missing

/-! ### Engine readiness (`handler.py`, `wait_for_comfyui`) -/

/-- Outcome of one `GET http://127.0.0.1:8188` probe: an exception
(connection refused, timeout, ...) or a response with an HTTP status
code. -/
inductive ConnResult where
  | exn
  | status (code : Nat)
  deriving DecidableEq, Repr

/-- The retry loop of `wait_for_comfyui` (handler.py lines 86-105):
up to `max_retries = 60` probes of the engine's root endpoint, 2 seconds
apart; probe `i` has outcome `env i`.  Only a response with status code 200
returns success; an exception is swallowed and any other status code falls
through, so both just continue the loop.  Exhausting the loop raises. -/
def comfyReadyLoop (env : Nat → ConnResult) (i : Nat) : Except String Unit :=
  if _h : i < 60 then
    match env i with
    | .exn => comfyReadyLoop env (i + 1)
    | .status code =>
      if code = 200 then .ok () else comfyReadyLoop env (i + 1)
  else .error "ComfyUI failed to become ready after 120 seconds"
termination_by 60 - i
decreasing_by all_goals omega

/-- `wait_for_comfyui`, starting at retry 0. -/
def wait_for_comfyui (env : Nat → ConnResult) : Except String Unit :=
  comfyReadyLoop env 0

/-! ## Helper lemmas -/

theorem inputsAt_updNode_of_ne (w : Wf) (id key : String) (v : Value)
    {n k : String} (h : n = id → k ≠ key) :
    inputsAt (updNode w id key v) n k = inputsAt w n k := by
  by_cases hn : n = id
  · subst hn
    cases hw : w n with
    | none => simp [inputsAt, updNode, hw]
    | some node => simp [inputsAt, updNode, hw, h rfl]
  · simp [inputsAt, updNode, hn]

theorem classType_updNode (w : Wf) (id key : String) (v : Value) (n : String) :
    (updNode w id key v n).map Node.class_type = (w n).map Node.class_type := by
  by_cases hn : n = id
  · subst hn
    cases hw : w n with
    | none => simp [updNode, hw]
    | some node => simp [updNode, hw]
  · simp [updNode, hn]

/-! ## Claims -/

/-- C3 (amended): for every input tuple, `create_wan_workflow` overwrites
exactly SIX fields of the copied graph at fixed node-identifier/parameter-key
pairs — node "79"'s image reference, node "81"'s text, and node "87"'s
camera pose, width, height and length — and leaves every other node and
parameter (and every node's operation type) equal to the template. -/
theorem create_wan_workflow_binds_exactly_six_fields
    (image_filename prompt camera_type : String) (width height length : Int) :
    (inputsAt (create_wan_workflow image_filename prompt camera_type width height length)
        "79" "image" = some (.vStr image_filename) ∧
     inputsAt (create_wan_workflow image_filename prompt camera_type width height length)
        "81" "text" = some (.vStr prompt) ∧
     inputsAt (create_wan_workflow image_filename prompt camera_type width height length)
        "87" "camera_pose" = some (.vStr camera_type) ∧
     inputsAt (create_wan_workflow image_filename prompt camera_type width height length)
        "87" "width" = some (.vInt width) ∧
     inputsAt (create_wan_workflow image_filename prompt camera_type width height length)
        "87" "height" = some (.vInt height) ∧
     inputsAt (create_wan_workflow image_filename prompt camera_type width height length)
        "87" "length" = some (.vInt length)) ∧
    (∀ n k, (n, k) ∉ ([("79", "image"), ("81", "text"), ("87", "camera_pose"),
        ("87", "width"), ("87", "height"), ("87", "length")] : List (String × String)) →
      inputsAt (create_wan_workflow image_filename prompt camera_type width height length) n k
        = inputsAt WORKFLOW_TEMPLATE n k) ∧
    (∀ n, ((create_wan_workflow image_filename prompt camera_type width height length) n).map
        Node.class_type = (WORKFLOW_TEMPLATE n).map Node.class_type) := by
  refine ⟨⟨rfl, rfl, rfl, rfl, rfl, rfl⟩, ?_, ?_⟩
  · intro n k h
    simp only [List.mem_cons, List.not_mem_nil, or_false, not_or, Prod.mk.injEq,
      not_and] at h
    obtain ⟨h1, h2, h3, h4, h5, h6⟩ := h
    simp only [create_wan_workflow]
    rw [inputsAt_updNode_of_ne _ _ _ _ h6, inputsAt_updNode_of_ne _ _ _ _ h5,
        inputsAt_updNode_of_ne _ _ _ _ h4, inputsAt_updNode_of_ne _ _ _ _ h3,
        inputsAt_updNode_of_ne _ _ _ _ h2, inputsAt_updNode_of_ne _ _ _ _ h1]
  · intro n
    simp only [create_wan_workflow]
    rw [classType_updNode, classType_updNode, classType_updNode,
        classType_updNode, classType_updNode, classType_updNode]

/-- C3 witness: at a concrete call, an untouched parameter (node "83"'s fps)
still holds the template's value while a bound one holds the argument. -/
theorem create_wan_workflow_binds_exactly_six_fields_witness :
    inputsAt (create_wan_workflow "img.png" "hello" "Static" 512 512 50) "83" "fps"
      = some (.vInt 30) ∧
    inputsAt (create_wan_workflow "img.png" "hello" "Static" 512 512 50) "79" "image"
      = some (.vStr "img.png") := by
  have h := create_wan_workflow_binds_exactly_six_fields "img.png" "hello" "Static" 512 512 50
  exact ⟨(h.2.1 "83" "fps" (by decide)).trans rfl, h.1.1⟩

/-- C3 counterexample: the claim says "exactly five fields", but at a
concrete input six pairwise distinct node/parameter pairs all change
relative to the template. -/
theorem create_wan_workflow_overwrites_six_not_five :
    inputsAt (create_wan_workflow "x.png" "p" "Static" 833 449 94) "79" "image"
      ≠ inputsAt WORKFLOW_TEMPLATE "79" "image" ∧
    inputsAt (create_wan_workflow "x.png" "p" "Static" 833 449 94) "81" "text"
      ≠ inputsAt WORKFLOW_TEMPLATE "81" "text" ∧
    inputsAt (create_wan_workflow "x.png" "p" "Static" 833 449 94) "87" "camera_pose"
      ≠ inputsAt WORKFLOW_TEMPLATE "87" "camera_pose" ∧
    inputsAt (create_wan_workflow "x.png" "p" "Static" 833 449 94) "87" "width"
      ≠ inputsAt WORKFLOW_TEMPLATE "87" "width" ∧
    inputsAt (create_wan_workflow "x.png" "p" "Static" 833 449 94) "87" "height"
      ≠ inputsAt WORKFLOW_TEMPLATE "87" "height" ∧
    inputsAt (create_wan_workflow "x.png" "p" "Static" 833 449 94) "87" "length"
      ≠ inputsAt WORKFLOW_TEMPLATE "87" "length" ∧
    ([("79", "image"), ("81", "text"), ("87", "camera_pose"),
      ("87", "width"), ("87", "height"), ("87", "length")] : List (String × String)).Nodup := by
  decide

/-- C4: binding never mutates the template (the embedding gives the deep
copy value semantics): the template's node 79/81/87 fields hold their
original literal values, and the bound fields of each of two calls with
arbitrary (possibly different) arguments are determined by that call's own
arguments alone. -/
theorem create_wan_workflow_preserves_template
    (i1 p1 c1 : String) (w1 h1 l1 : Int) (i2 p2 c2 : String) (w2 h2 l2 : Int) :
    (inputsAt WORKFLOW_TEMPLATE "79" "image" = some (.vStr "amueblar_after.png") ∧
     inputsAt WORKFLOW_TEMPLATE "81" "text"
       = some (.vStr "cinematic static objects, smooth camera movement, atmospheric lighting") ∧
     inputsAt WORKFLOW_TEMPLATE "87" "camera_pose" = some (.vStr "Zoom In") ∧
     inputsAt WORKFLOW_TEMPLATE "87" "width" = some (.vInt 832) ∧
     inputsAt WORKFLOW_TEMPLATE "87" "height" = some (.vInt 448) ∧
     inputsAt WORKFLOW_TEMPLATE "87" "length" = some (.vInt 93)) ∧
    (inputsAt (create_wan_workflow i1 p1 c1 w1 h1 l1) "79" "image" = some (.vStr i1) ∧
     inputsAt (create_wan_workflow i1 p1 c1 w1 h1 l1) "81" "text" = some (.vStr p1) ∧
     inputsAt (create_wan_workflow i1 p1 c1 w1 h1 l1) "87" "camera_pose" = some (.vStr c1) ∧
     inputsAt (create_wan_workflow i1 p1 c1 w1 h1 l1) "87" "width" = some (.vInt w1) ∧
     inputsAt (create_wan_workflow i1 p1 c1 w1 h1 l1) "87" "height" = some (.vInt h1) ∧
     inputsAt (create_wan_workflow i1 p1 c1 w1 h1 l1) "87" "length" = some (.vInt l1)) ∧
    (inputsAt (create_wan_workflow i2 p2 c2 w2 h2 l2) "79" "image" = some (.vStr i2) ∧
     inputsAt (create_wan_workflow i2 p2 c2 w2 h2 l2) "81" "text" = some (.vStr p2) ∧
     inputsAt (create_wan_workflow i2 p2 c2 w2 h2 l2) "87" "camera_pose" = some (.vStr c2) ∧
     inputsAt (create_wan_workflow i2 p2 c2 w2 h2 l2) "87" "width" = some (.vInt w2) ∧
     inputsAt (create_wan_workflow i2 p2 c2 w2 h2 l2) "87" "height" = some (.vInt h2) ∧
     inputsAt (create_wan_workflow i2 p2 c2 w2 h2 l2) "87" "length" = some (.vInt l2)) :=
  ⟨⟨rfl, rfl, rfl, rfl, rfl, rfl⟩, ⟨rfl, rfl, rfl, rfl, rfl, rfl⟩,
   ⟨rfl, rfl, rfl, rfl, rfl, rfl⟩⟩

/-- C10: the `speed` and `fps` fields of a validated request never influence
the submitted graph: two validated requests agreeing on every field used by
the binder (image, prompt, camera type, width, height, length) — hence in
particular two requests differing only in `speed` and/or `fps` — produce
identical graphs, in which node "87"'s speed stays at the template's 0.2 and
node "83"'s fps at the template's 30. -/
theorem speed_fps_do_not_influence_workflow
    (t : String) (v1 v2 : Validated)
    (_him : v1.image = v2.image) (hp : v1.prompt = v2.prompt)
    (hc : v1.camera_type = v2.camera_type) (hw : v1.width = v2.width)
    (hh : v1.height = v2.height) (hl : v1.length = v2.length) :
    workflowForJob t v1 = workflowForJob t v2 ∧
    inputsAt (workflowForJob t v1) "87" "speed" = some (.vNum (pyFloat 2 1)) ∧
    inputsAt (workflowForJob t v1) "83" "fps" = some (.vInt 30) := by
  refine ⟨?_, rfl, rfl⟩
  unfold workflowForJob
  rw [hp, hc, hw, hh, hl]

/-- C10 witness: two concrete validated requests differing only in speed and
fps give the same graph, with the template's speed and fps inside it. -/
theorem speed_fps_do_not_influence_workflow_witness :
    workflowForJob "tmp.png"
        { image := "aGk=", prompt := "p", camera_type := "Static",
          width := 512, height := 512, length := 50,
          speed := pyFloat 3 1, fps := 24 }
      = workflowForJob "tmp.png"
        { image := "aGk=", prompt := "p", camera_type := "Static",
          width := 512, height := 512, length := 50,
          speed := pyFloat 9 1, fps := 60 } ∧
    inputsAt (workflowForJob "tmp.png"
        { image := "aGk=", prompt := "p", camera_type := "Static",
          width := 512, height := 512, length := 50,
          speed := pyFloat 3 1, fps := 24 }) "87" "speed"
      = some (.vNum (pyFloat 2 1)) ∧
    inputsAt (workflowForJob "tmp.png"
        { image := "aGk=", prompt := "p", camera_type := "Static",
          width := 512, height := 512, length := 50,
          speed := pyFloat 3 1, fps := 24 }) "83" "fps"
      = some (.vInt 30) :=
  speed_fps_do_not_influence_workflow "tmp.png" _ _ rfl rfl rfl rfl rfl rfl

theorem waitLoop_terminal (env : Nat → PollResp) (timeout : Nat) :
    ∀ fuel elapsed, timeout - elapsed ≤ fuel →
      (∃ e, waitLoop env timeout elapsed = .completed e ∧ e.outputs.isSome = true) ∨
      (∃ e, waitLoop env timeout elapsed = .failed e ∧ e.status_str = some "error") ∨
      waitLoop env timeout elapsed = .timedOut := by
  intro fuel
  induction fuel with
  | zero =>
    intro elapsed hf
    right; right
    rw [waitLoop]
    simp [show ¬ elapsed < timeout by omega]
  | succ fuel ih =>
    intro elapsed hf
    by_cases hlt : elapsed < timeout
    · rw [waitLoop]
      cases henv : env elapsed with
      | transportErr =>
        simp only [henv, dif_pos hlt]
        exact ih (elapsed + 5) (by omega)
      | missing =>
        simp only [henv, dif_pos hlt]
        exact ih (elapsed + 2) (by omega)
      | entry e =>
        simp only [henv, dif_pos hlt]
        by_cases ho : e.outputs.isSome
        · left
          exact ⟨e, by simp [ho], ho⟩
        · by_cases hs : e.status_str = some "error"
          · right; left
            exact ⟨e, by simp [ho, hs], hs⟩
          · simp only [Bool.not_eq_true] at ho
            simp only [ho, Bool.false_eq_true, if_false, if_neg hs]
            exact ih (elapsed + 2) (by omega)
    · right; right
      rw [waitLoop]
      simp [hlt]

/-- C2: `wait_for_completion` starts the poll loop at elapsed time 0 and the
loop terminates in exactly one of three ways — returning the history entry
as soon as it carries an "outputs" key, raising with the engine-reported
error status, or timing out once `timeout` has elapsed; a poll giving a
transport error makes the loop wait 5 seconds and retry, while a poll
giving no entry (or an entry that is neither done nor failed) makes it wait
the fixed 2-second interval and retry. -/
theorem wait_for_completion_spec (env : Nat → PollResp) (timeout elapsed : Nat) :
    (wait_for_completion env timeout = waitLoop env timeout 0) ∧
    (¬ elapsed < timeout → waitLoop env timeout elapsed = .timedOut) ∧
    (∀ e, elapsed < timeout → env elapsed = .entry e → e.outputs.isSome →
      waitLoop env timeout elapsed = .completed e) ∧
    (∀ e, elapsed < timeout → env elapsed = .entry e → ¬ e.outputs.isSome →
      e.status_str = some "error" → waitLoop env timeout elapsed = .failed e) ∧
    (elapsed < timeout → env elapsed = .transportErr →
      waitLoop env timeout elapsed = waitLoop env timeout (elapsed + 5)) ∧
    (elapsed < timeout → env elapsed = .missing →
      waitLoop env timeout elapsed = waitLoop env timeout (elapsed + 2)) ∧
    (∀ e, elapsed < timeout → env elapsed = .entry e → ¬ e.outputs.isSome →
      e.status_str ≠ some "error" →
      waitLoop env timeout elapsed = waitLoop env timeout (elapsed + 2)) ∧
    ((∃ e, waitLoop env timeout elapsed = .completed e ∧ e.outputs.isSome = true) ∨
     (∃ e, waitLoop env timeout elapsed = .failed e ∧ e.status_str = some "error") ∨
     waitLoop env timeout elapsed = .timedOut) := by
  refine ⟨rfl, ?_, ?_, ?_, ?_, ?_, ?_,
    waitLoop_terminal env timeout (timeout - elapsed) elapsed le_rfl⟩
  · intro h
    rw [waitLoop]
    simp [h]
  · intro e hlt henv ho
    rw [waitLoop]
    simp [hlt, henv, ho]
  · intro e hlt henv ho hs
    rw [waitLoop]
    simp only [Bool.not_eq_true] at ho
    simp [hlt, henv, ho, hs]
  · intro hlt henv
    rw [waitLoop]
    simp [hlt, henv]
  · intro hlt henv
    rw [waitLoop]
    simp [hlt, henv]
  · intro e hlt henv ho hs
    rw [waitLoop]
    simp only [Bool.not_eq_true] at ho
    simp [hlt, henv, ho, hs]

/-- C2 witness: a concrete run in which the first poll hits a transport
error (wait 5 seconds), the next poll finds no entry for the id (wait 2
seconds), and the following poll finds the entry with outputs and returns
it; a loop started past its deadline times out. -/
theorem wait_for_completion_spec_witness :
    waitLoop (fun t => if t = 0 then PollResp.transportErr else if t = 5
        then PollResp.missing else PollResp.entry ⟨some (some []), none⟩) 600 0
      = waitLoop (fun t => if t = 0 then PollResp.transportErr else if t = 5
        then PollResp.missing else PollResp.entry ⟨some (some []), none⟩) 600 5 ∧
    waitLoop (fun t => if t = 0 then PollResp.transportErr else if t = 5
        then PollResp.missing else PollResp.entry ⟨some (some []), none⟩) 600 5
      = waitLoop (fun t => if t = 0 then PollResp.transportErr else if t = 5
        then PollResp.missing else PollResp.entry ⟨some (some []), none⟩) 600 7 ∧
    waitLoop (fun t => if t = 0 then PollResp.transportErr else if t = 5
        then PollResp.missing else PollResp.entry ⟨some (some []), none⟩) 600 7
      = .completed ⟨some (some []), none⟩ ∧
    waitLoop (fun t => if t = 0 then PollResp.transportErr else if t = 5
        then PollResp.missing else PollResp.entry ⟨some (some []), none⟩) 700 700
      = .timedOut := by
  refine ⟨?_, ?_, ?_, ?_⟩
  · exact (wait_for_completion_spec _ 600 0).2.2.2.2.1 (by decide) rfl
  · exact (wait_for_completion_spec _ 600 5).2.2.2.2.2.1 (by decide) rfl
  · exact (wait_for_completion_spec _ 600 7).2.2.1 _ (by decide) rfl rfl
  · exact (wait_for_completion_spec _ 700 700).2.1 (by omega)

theorem comfyReadyLoop_spec (env : Nat → ConnResult) :
    ∀ fuel i, 60 - i ≤ fuel →
      (comfyReadyLoop env i = .ok () ↔ ∃ j, i ≤ j ∧ j < 60 ∧ env j = .status 200) ∧
      (comfyReadyLoop env i ≠ .ok () →
        comfyReadyLoop env i = .error "ComfyUI failed to become ready after 120 seconds") := by
  intro fuel
  induction fuel with
  | zero =>
    intro i hf
    have hge : ¬ i < 60 := by omega
    rw [comfyReadyLoop]
    refine ⟨?_, fun _ => dif_neg hge⟩
    rw [dif_neg hge]
    constructor
    · intro h
      exact absurd h (by simp)
    · rintro ⟨j, hij, hj, _⟩
      omega
  | succ fuel ih =>
    intro i hf
    by_cases hlt : i < 60
    · rw [comfyReadyLoop]
      simp only [dif_pos hlt]
      cases henv : env i with
      | exn =>
        have h := ih (i + 1) (by omega)
        refine ⟨h.1.trans ?_, h.2⟩
        constructor
        · rintro ⟨j, hij, hj, hjs⟩
          exact ⟨j, by omega, hj, hjs⟩
        · rintro ⟨j, hij, hj, hjs⟩
          refine ⟨j, ?_, hj, hjs⟩
          rcases Nat.eq_or_lt_of_le hij with hji | hji
          · exact absurd hjs (by rw [← hji, henv]; exact fun hc => ConnResult.noConfusion hc)
          · omega
      | status code =>
        dsimp only
        by_cases hc : code = 200
        · rw [if_pos hc]
          rw [hc] at henv
          refine ⟨?_, fun h => absurd rfl h⟩
          simp only [true_iff]
          exact ⟨i, le_rfl, hlt, henv⟩
        · rw [if_neg hc]
          have h := ih (i + 1) (by omega)
          refine ⟨h.1.trans ?_, h.2⟩
          constructor
          · rintro ⟨j, hij, hj, hjs⟩
            exact ⟨j, by omega, hj, hjs⟩
          · rintro ⟨j, hij, hj, hjs⟩
            refine ⟨j, ?_, hj, hjs⟩
            rcases Nat.eq_or_lt_of_le hij with hji | hji
            · rw [← hji, henv] at hjs
              cases hjs
              exact absurd rfl hc
            · omega
    · rw [comfyReadyLoop]
      refine ⟨?_, fun _ => dif_neg hlt⟩
      rw [dif_neg hlt]
      constructor
      · intro h
        exact absurd h (by simp)
      · rintro ⟨j, hij, hj, _⟩
        omega

/-- C9 (amended): the engine readiness wait polls the root endpoint at a
fixed 2-second interval up to 60 retries, returns success exactly when some
probe receives a response with HTTP status code 200 (exceptions and non-200
responses both just continue the loop), and raises — aborting startup —
when the 60 retries pass without a 200 response. -/
theorem wait_for_comfyui_succeeds_iff_200 (env : Nat → ConnResult) :
    (wait_for_comfyui env = .ok () ↔ ∃ i, i < 60 ∧ env i = .status 200) ∧
    (¬ (∃ i, i < 60 ∧ env i = .status 200) →
      wait_for_comfyui env = .error "ComfyUI failed to become ready after 120 seconds") := by
  have h := comfyReadyLoop_spec env 60 0 (by omega)
  have hiff : wait_for_comfyui env = .ok () ↔ ∃ i, i < 60 ∧ env i = .status 200 := by
    refine h.1.trans ?_
    constructor
    · rintro ⟨j, _, hj, hjs⟩
      exact ⟨j, hj, hjs⟩
    · rintro ⟨j, hj, hjs⟩
      exact ⟨j, Nat.zero_le j, hj, hjs⟩
  refine ⟨hiff, fun hnone => h.2 fun hok => hnone (hiff.mp hok)⟩

/-- C9 witness: when every probe raises a connection exception, the wait
exhausts its 60 retries and raises the readiness error. -/
theorem wait_for_comfyui_succeeds_iff_200_witness :
    wait_for_comfyui (fun _ => ConnResult.exn)
      = .error "ComfyUI failed to become ready after 120 seconds" :=
  (wait_for_comfyui_succeeds_iff_200 (fun _ => ConnResult.exn)).2
    (fun ⟨_, _, hi⟩ => ConnResult.noConfusion hi)

/-- C9 counterexample: an engine that answers every probe (reachably) with
HTTP status 500 never satisfies the loop — the wait raises even though a
reachable response arrived at every retry, refuting "success is any
reachable response". -/
theorem wait_for_comfyui_rejects_reachable_non_200 :
    wait_for_comfyui (fun _ => ConnResult.status 500)
      = .error "ComfyUI failed to become ready after 120 seconds" :=
  (comfyReadyLoop_spec (fun _ => ConnResult.status 500) 60 0 (by omega)).2
    (fun hok => by
      obtain ⟨j, _, _, hjs⟩ :=
        (comfyReadyLoop_spec (fun _ => ConnResult.status 500) 60 0 (by omega)).1.mp hok
      cases hjs)

/-- C1 (amended): for every job whose `"input"` key is present, `handler`
never lets an exception propagate: whatever the engine oracle does, it
returns a response, a validation exception becomes the structured error
response with no engine calls, and an exception from any later stage
(upload, binding, submission, polling, artifact fetch) becomes the
structured error response carrying that exception's message. -/
theorem handler_catches_all_errors_with_input_key (env : Env) (ji : JobInput) :
    (∃ r calls, handler env ⟨some ji⟩ = .ok (r, calls)) ∧
    (∀ e, validate_input ji = .error e → handler env ⟨some ji⟩ = .ok (.failure e, [])) ∧
    (∀ v m calls, validate_input ji = .ok v →
      process_image_to_video env v = (.error m, calls) →
      handler env ⟨some ji⟩ = .ok (.failure m, calls)) := by
  refine ⟨?_, ?_, ?_⟩
  · cases hv : validate_input ji with
    | error e =>
      exact ⟨.failure e, [], by simp [handler, hv]⟩
    | ok v =>
      rcases hp : process_image_to_video env v with ⟨res, calls⟩
      cases res with
      | error m => exact ⟨.failure m, calls, by simp [handler, hv, hp]⟩
      | ok bf => exact ⟨.success bf.1 bf.2 v, calls, by simp [handler, hv, hp]⟩
  · intro e hv
    simp [handler, hv]
  · intro v m calls hv hp
    simp [handler, hv, hp]

/-- C1 witness: a job whose input has an out-of-enum camera type gets the
structured error response, with no engine calls, for an arbitrary concrete
engine oracle. -/
theorem handler_catches_all_errors_with_input_key_witness :
    handler ⟨.ok (), fun _ => .ok "pid", fun _ => .missing, .ok [], "tmp.png"⟩
        ⟨some { image := some (.str "aGk="), camera_type := some "Sideways" }⟩
      = .ok (.failure "Invalid camera_type. Must be one of: ['Zoom In', 'Static', 'Zoom Out', 'Pan Left', 'Pan Right']", []) :=
  (handler_catches_all_errors_with_input_key
      ⟨.ok (), fun _ => .ok "pid", fun _ => .missing, .ok [], "tmp.png"⟩
      { image := some (.str "aGk="), camera_type := some "Sideways" }).2.1 _ rfl

/-- C1 counterexample: `job["input"]` is read before the try-block, so a job
value without the `"input"` key makes `handler` raise a `KeyError` to its
caller instead of returning a structured error response. -/
theorem handler_raises_without_input_key :
    handler ⟨.ok (), fun _ => .ok "pid", fun _ => .missing, .ok [], "tmp.png"⟩ ⟨none⟩
      = .error "KeyError: 'input'" := rfl

/-- C5: a job request whose image field is missing, or not a string, or not
valid base64 after stripping an optional data-URL marker, makes validation
raise and `handler` return the corresponding structured error response with
zero engine calls, whatever the engine oracle would have answered. -/
theorem invalid_image_fails_fast (env : Env) (j : JobInput) :
    (j.image = none →
      handler env ⟨some j⟩ = .ok (.failure "Missing required field: image", [])) ∧
    (j.image = some .nonStr →
      handler env ⟨some j⟩ = .ok (.failure "Image must be base64 encoded string", [])) ∧
    (∀ s e, j.image = some (.str s) → checkImageData s = .error e →
      handler env ⟨some j⟩ = .ok (.failure e, [])) := by
  refine ⟨?_, ?_, ?_⟩
  · intro h
    simp [handler, validate_input, h]
  · intro h
    simp [handler, validate_input, h]
  · intro s e hs he
    simp [handler, validate_input, hs, he]

/-- C5 witness: the spec's concrete scenario — the job input
`{"image": "not-base64"}` yields the error response
`{"error": "Invalid base64 image data", "success": False}` without engine
interaction. -/
theorem invalid_image_fails_fast_witness :
    handler ⟨.ok (), fun _ => .ok "pid", fun _ => .missing, .ok [], "tmp.png"⟩
        ⟨some { image := some (.str "not-base64") }⟩
      = .ok (.failure "Invalid base64 image data", []) :=
  (invalid_image_fails_fast
      ⟨.ok (), fun _ => .ok "pid", fun _ => .missing, .ok [], "tmp.png"⟩
      { image := some (.str "not-base64") }).2.2 "not-base64" _ rfl rfl

/-- C6: for a job whose image validates, `validate_input` fills the default
for every absent optional field, and succeeds exactly when the defaulted
camera type is one of the five literals, width and height lie in
[256, 1920], length lies in [16, 200] and speed lies in [0.1, 1.0]; any
violation makes it raise with some descriptive message. -/
theorem validate_input_defaults_and_bounds (j : JobInput) (s img : String)
    (hs : j.image = some (.str s)) (hok : checkImageData s = .ok img) :
    (∀ v, validate_input j = .ok v →
      v = { image := img,
            prompt := j.prompt.getD "cinematic static objects, smooth camera movement",
            camera_type := j.camera_type.getD "Zoom In",
            width := j.width.getD 832, height := j.height.getD 448,
            length := j.length.getD 93, speed := j.speed.getD (pyFloat 2 1),
            fps := j.fps.getD 30 } ∧
      v.camera_type ∈ validCameraTypes ∧
      256 ≤ v.width ∧ v.width ≤ 1920 ∧ 256 ≤ v.height ∧ v.height ≤ 1920 ∧
      16 ≤ v.length ∧ v.length ≤ 200 ∧
      pyFloat 1 1 ≤ v.speed ∧ v.speed ≤ pyFloat 10 1) ∧
    ((j.camera_type.getD "Zoom In" ∈ validCameraTypes ∧
      256 ≤ j.width.getD 832 ∧ j.width.getD 832 ≤ 1920 ∧
      256 ≤ j.height.getD 448 ∧ j.height.getD 448 ≤ 1920 ∧
      16 ≤ j.length.getD 93 ∧ j.length.getD 93 ≤ 200 ∧
      pyFloat 1 1 ≤ j.speed.getD (pyFloat 2 1) ∧
      j.speed.getD (pyFloat 2 1) ≤ pyFloat 10 1) →
      validate_input j = .ok
        { image := img,
          prompt := j.prompt.getD "cinematic static objects, smooth camera movement",
          camera_type := j.camera_type.getD "Zoom In",
          width := j.width.getD 832, height := j.height.getD 448,
          length := j.length.getD 93, speed := j.speed.getD (pyFloat 2 1),
          fps := j.fps.getD 30 }) ∧
    (¬ (j.camera_type.getD "Zoom In" ∈ validCameraTypes ∧
      256 ≤ j.width.getD 832 ∧ j.width.getD 832 ≤ 1920 ∧
      256 ≤ j.height.getD 448 ∧ j.height.getD 448 ≤ 1920 ∧
      16 ≤ j.length.getD 93 ∧ j.length.getD 93 ≤ 200 ∧
      pyFloat 1 1 ≤ j.speed.getD (pyFloat 2 1) ∧
      j.speed.getD (pyFloat 2 1) ≤ pyFloat 10 1) →
      ∃ m, validate_input j = .error m) := by
  have hval : validate_input j =
      (let validated : Validated :=
        { image := img,
          prompt := j.prompt.getD "cinematic static objects, smooth camera movement",
          camera_type := j.camera_type.getD "Zoom In",
          width := j.width.getD 832, height := j.height.getD 448,
          length := j.length.getD 93, speed := j.speed.getD (pyFloat 2 1),
          fps := j.fps.getD 30 }
      if validated.camera_type ∉ validCameraTypes then
        .error "Invalid camera_type. Must be one of: ['Zoom In', 'Static', 'Zoom Out', 'Pan Left', 'Pan Right']"
      else if ¬(256 ≤ validated.width ∧ validated.width ≤ 1920 ∧
                256 ≤ validated.height ∧ validated.height ≤ 1920) then
        .error "Width and height must be between 256 and 1920"
      else if ¬(16 ≤ validated.length ∧ validated.length ≤ 200) then
        .error "Length must be between 16 and 200 frames"
      else if ¬(pyFloat 1 1 ≤ validated.speed ∧ validated.speed ≤ pyFloat 10 1) then
        .error "Speed must be between 0.1 and 1.0"
      else .ok validated) := by
    simp only [validate_input, hs, hok]
  refine ⟨?_, ?_, ?_⟩
  · intro v hv
    rw [hval] at hv
    simp only at hv
    by_cases h1 : j.camera_type.getD "Zoom In" ∈ validCameraTypes
    swap
    · rw [if_pos h1] at hv
      exact absurd hv (by simp)
    rw [if_neg (not_not.mpr h1)] at hv
    by_cases h2 : 256 ≤ j.width.getD 832 ∧ j.width.getD 832 ≤ 1920 ∧
        256 ≤ j.height.getD 448 ∧ j.height.getD 448 ≤ 1920
    swap
    · rw [if_pos h2] at hv
      exact absurd hv (by simp)
    rw [if_neg (not_not.mpr h2)] at hv
    by_cases h3 : 16 ≤ j.length.getD 93 ∧ j.length.getD 93 ≤ 200
    swap
    · rw [if_pos h3] at hv
      exact absurd hv (by simp)
    rw [if_neg (not_not.mpr h3)] at hv
    by_cases h4 : pyFloat 1 1 ≤ j.speed.getD (pyFloat 2 1) ∧
        j.speed.getD (pyFloat 2 1) ≤ pyFloat 10 1
    swap
    · rw [if_pos h4] at hv
      exact absurd hv (by simp)
    rw [if_neg (not_not.mpr h4)] at hv
    simp only [Except.ok.injEq] at hv
    subst hv
    exact ⟨rfl, h1, h2.1, h2.2.1, h2.2.2.1, h2.2.2.2, h3.1, h3.2, h4.1, h4.2⟩
  · intro hcond
    obtain ⟨hc, hw1, hw2, hh1, hh2, hl1, hl2, hs1, hs2⟩ := hcond
    rw [hval]
    simp only
    rw [if_neg (not_not.mpr hc), if_neg (not_not.mpr ⟨hw1, hw2, hh1, hh2⟩),
        if_neg (not_not.mpr ⟨hl1, hl2⟩), if_neg (not_not.mpr ⟨hs1, hs2⟩)]
  · intro hncond
    rw [hval]
    simp only
    by_cases h1 : j.camera_type.getD "Zoom In" ∈ validCameraTypes
    swap
    · rw [if_pos h1]
      exact ⟨_, rfl⟩
    rw [if_neg (not_not.mpr h1)]
    by_cases h2 : 256 ≤ j.width.getD 832 ∧ j.width.getD 832 ≤ 1920 ∧
        256 ≤ j.height.getD 448 ∧ j.height.getD 448 ≤ 1920
    swap
    · rw [if_pos h2]
      exact ⟨_, rfl⟩
    rw [if_neg (not_not.mpr h2)]
    by_cases h3 : 16 ≤ j.length.getD 93 ∧ j.length.getD 93 ≤ 200
    swap
    · rw [if_pos h3]
      exact ⟨_, rfl⟩
    rw [if_neg (not_not.mpr h3)]
    by_cases h4 : pyFloat 1 1 ≤ j.speed.getD (pyFloat 2 1) ∧
        j.speed.getD (pyFloat 2 1) ≤ pyFloat 10 1
    swap
    · rw [if_pos h4]
      exact ⟨_, rfl⟩
    exact absurd ⟨h1, h2.1, h2.2.1, h2.2.2.1, h2.2.2.2,
      h3.1, h3.2, h4.1, h4.2⟩ hncond

/-- C6 witness: a concrete job with a valid image and only `width` supplied
validates successfully with every other optional field defaulted. -/
theorem validate_input_defaults_and_bounds_witness :
    validate_input { image := some (.str "aGk="), width := some 512 }
      = .ok { image := "aGk=",
              prompt := "cinematic static objects, smooth camera movement",
              camera_type := "Zoom In", width := 512, height := 448,
              length := 93, speed := pyFloat 2 1, fps := 30 } :=
  (validate_input_defaults_and_bounds
      { image := some (.str "aGk="), width := some 512 } "aGk=" "aGk=" rfl rfl).2.1
    (by refine ⟨by decide, by decide, by decide, by decide, by decide,
          by decide, by decide, by decide, by decide⟩)

theorem mem_fsInsert_of_mem {fs : List String} {p : String} (q : String)
    (h : p ∈ fs) : p ∈ fsInsert fs q := by
  unfold fsInsert
  split <;> simp [h]

theorem self_mem_fsInsert (fs : List String) (q : String) : q ∈ fsInsert fs q := by
  unfold fsInsert
  split <;> simp_all

theorem downloadLoop_fail :
    ∀ (missing : List (String × String)) (env : Nat → DlAttempt) (fs : List String)
      (i : Nat) (hi : i < missing.length),
      (∀ j, j < i → env j = .ok) → env i = .fail →
      (downloadLoop env fs missing).outcome
          = .error ("Failed to download required model: " ++ missing[i].2) ∧
      (downloadLoop env fs missing).attempted = missing.take (i + 1) ∧
      modelPath missing[i].1 missing[i].2 ∉ (downloadLoop env fs missing).fs := by
  intro missing
  induction missing with
  | nil =>
    intro env fs i hi
    simp at hi
  | cons e rest ih =>
    intro env fs i hi hok hfail
    cases i with
    | zero =>
      simp only [downloadLoop, hfail]
      refine ⟨rfl, rfl, ?_⟩
      simp [fsErase]
    | succ i =>
      have h0 : env 0 = .ok := hok 0 (Nat.succ_pos _)
      simp only [downloadLoop, h0]
      have ihr := ih (fun n => env (n + 1)) (fsInsert fs (modelPath e.1 e.2)) i
        (by simpa using hi) (fun j hj => hok (j + 1) (by omega)) hfail
      refine ⟨by simpa using ihr.1, ?_, by simpa using ihr.2.2⟩
      simp only [List.take_succ_cons, List.getElem_cons_succ]
      simpa using ihr.2.1

theorem downloadLoop_ok_mem :
    ∀ (missing : List (String × String)) (env : Nat → DlAttempt) (fs : List String),
      (downloadLoop env fs missing).outcome = .ok () →
      (∀ p, p ∈ fs → p ∈ (downloadLoop env fs missing).fs) ∧
      (∀ e, e ∈ missing → modelPath e.1 e.2 ∈ (downloadLoop env fs missing).fs) := by
  intro missing
  induction missing with
  | nil =>
    intro env fs _
    exact ⟨fun p hp => hp, fun e he => absurd he (List.not_mem_nil e)⟩
  | cons e rest ih =>
    intro env fs hout
    cases h0 : env 0 with
    | fail =>
      rw [downloadLoop] at hout
      simp [h0] at hout
    | ok =>
      simp only [downloadLoop, h0] at hout ⊢
      have hrec := ih (fun n => env (n + 1)) (fsInsert fs (modelPath e.1 e.2)) hout
      refine ⟨?_, ?_⟩
      · intro p hp
        exact hrec.1 p (mem_fsInsert_of_mem _ hp)
      · intro f hf
        rcases List.mem_cons.mp hf with hf | hf
        · subst hf
          exact hrec.1 _ (self_mem_fsInsert fs _)
        · exact hrec.2 f hf

theorem missing_models_eq_nil (fs : List String)
    (h : ∀ p, p ∈ manifestPaths → p ∈ fs) : missing_models fs = [] := by
  unfold missing_models
  rw [List.filter_eq_nil_iff]
  intro e he
  simp only [decide_eq_true_eq, not_not]
  exact h _ (List.mem_map_of_mem _ he)

/-- C7: when the download of the `i`-th missing manifest entry fails (after
the earlier ones succeeded), the provisioning pass raises the download
error, the failing entry's file is not left on disk, and no entry after the
`i`-th is attempted. -/
theorem provision_aborts_on_download_failure (env : Nat → DlAttempt)
    (fs : List String) (i : Nat) (hi : i < (missing_models fs).length)
    (hok : ∀ j, j < i → env j = .ok) (hfail : env i = .fail) :
    (check_and_download_models env fs).outcome
        = .error ("Failed to download required model: " ++ (missing_models fs)[i].2) ∧
    (check_and_download_models env fs).attempted = (missing_models fs).take (i + 1) ∧
    modelPath (missing_models fs)[i].1 (missing_models fs)[i].2
      ∉ (check_and_download_models env fs).fs := by
  have hne : ¬ missing_models fs = [] := by
    intro h
    rw [h] at hi
    simp at hi
  simp only [check_and_download_models, if_neg hne]
  exact downloadLoop_fail (missing_models fs) env fs i hi hok hfail

/-- C7 witness: with an empty store and a first download that fails, the
pass raises the error for the first manifest entry and attempts nothing
further. -/
theorem provision_aborts_on_download_failure_witness :
    (check_and_download_models (fun _ => DlAttempt.fail) []).outcome
        = .error "Failed to download required model: wan2.2_fun_camera_high_noise_14B_fp8_scaled.safetensors" ∧
    (check_and_download_models (fun _ => DlAttempt.fail) []).attempted
        = [("diffusion_models", "wan2.2_fun_camera_high_noise_14B_fp8_scaled.safetensors")] := by
  have h := provision_aborts_on_download_failure (fun _ => DlAttempt.fail) [] 0
    (by decide) (fun j hj => absurd hj (Nat.not_lt_zero j)) rfl
  exact ⟨h.1, h.2.1⟩

/-- C8: the provisioner is idempotent — when every manifest file is present
it performs zero downloads and leaves the store untouched, and a second
invocation right after a successful first one is such a no-op. -/
theorem provisioner_idempotent (env env2 : Nat → DlAttempt) (fs : List String) :
    ((∀ p, p ∈ manifestPaths → p ∈ fs) →
      check_and_download_models env fs = ⟨.ok (), fs, []⟩) ∧
    ((check_and_download_models env fs).outcome = .ok () →
      check_and_download_models env2 (check_and_download_models env fs).fs
        = ⟨.ok (), (check_and_download_models env fs).fs, []⟩) := by
  constructor
  · intro hall
    simp [check_and_download_models, missing_models_eq_nil fs hall]
  · intro hout
    by_cases hnil : missing_models fs = []
    · have hch : check_and_download_models env fs = ⟨.ok (), fs, []⟩ := by
        simp [check_and_download_models, hnil]
      rw [hch]
      have hall : ∀ p, p ∈ manifestPaths → p ∈ fs := by
        intro p hp
        obtain ⟨e, he, hpe⟩ := List.mem_map.mp hp
        by_contra hnot
        have hmem : e ∈ missing_models fs := by
          unfold missing_models
          rw [List.mem_filter]
          refine ⟨he, ?_⟩
          simp only [decide_eq_true_eq]
          rw [hpe]
          exact hnot
        rw [hnil] at hmem
        exact absurd hmem (List.not_mem_nil e)
      simp [check_and_download_models, missing_models_eq_nil fs hall]
    · have hch : check_and_download_models env fs
          = downloadLoop env fs (missing_models fs) := by
        simp [check_and_download_models, hnil]
      rw [hch] at hout ⊢
      have hmem := downloadLoop_ok_mem (missing_models fs) env fs hout
      have hall : ∀ p, p ∈ manifestPaths →
          p ∈ (downloadLoop env fs (missing_models fs)).fs := by
        intro p hp
        obtain ⟨e, he, hpe⟩ := List.mem_map.mp hp
        subst hpe
        by_cases hin : modelPath e.1 e.2 ∈ fs
        · exact hmem.1 _ hin
        · refine hmem.2 e ?_
          unfold missing_models
          rw [List.mem_filter]
          exact ⟨he, by simpa using hin⟩
      simp [check_and_download_models, missing_models_eq_nil _ hall]

/-- C8 witness: with every manifest path already on disk, a pass performs no
download and leaves the store exactly as it was. -/
theorem provisioner_idempotent_witness :
    check_and_download_models (fun _ => DlAttempt.ok) manifestPaths
      = ⟨.ok (), manifestPaths, []⟩ :=
  (provisioner_idempotent (fun _ => DlAttempt.ok) (fun _ => DlAttempt.ok)
      manifestPaths).1 (fun _ hp => hp)

end WanCamera
